import Mathlib

/-!
Verification development for the smart-home firmware's connection state
machine (wifi_manager.c), command protocol layer (mqtt_manager.c,
mqtt_callback.c, json_helper.c), device state coordinator and periodic
publisher (task_mqtt.c), and mode manager (mode_manager.c).

The C sources are shallowly embedded: file-scope mutable state becomes a
record threaded through the functions, driver/NVS side effects that the
firmware treats as succeeding are modelled as succeeding (each such spot is
noted in the doc comment of the embedding), fired user callbacks and issued
driver actions are collected in lists, and C strings become `List Char`.
-/

namespace SmartHome

/-- `esp_err_t` values used by the embedded components. -/
inductive EspErr where
  | ESP_OK
  | ESP_FAIL
  | ESP_ERR_NO_MEM
  | ESP_ERR_INVALID_STATE
  | ESP_ERR_INVALID_ARG
  deriving DecidableEq, Repr

/-! ## Connection state machine: wifi_manager.c -/

/-- `wifi_state_t` from wifi_manager.c. -/
inductive WifiState where
  | IDLE
  | CONNECTING
  | CONNECTED
  | DISCONNECTED
  | PROVISIONING
  deriving DecidableEq, Repr

/-- `wifi_manager_event_t` from wifi_manager.h: the events the manager fires
to its registered callback. -/
inductive WifiMgrEvent where
  | DISCONNECTED
  | CONNECTING
  | CONNECTED
  | GOT_IP
  | PROVISIONING_STARTED
  | PROVISIONING_FAILED
  | PROVISIONING_SUCCESS
  deriving DecidableEq, Repr

/-- Driver-level calls issued by the event handler / provisioning path. -/
inductive WifiAction where
  | espWifiConnect
  | espWifiDisconnect
  | espWifiStop
  | webserverStart
  | dnsServerStart
  deriving DecidableEq, Repr

/-- Driver events delivered to `wifi_event_handler`. -/
inductive DriverEvent where
  | staStart
  | staDisconnected
  | gotIp
  deriving DecidableEq, Repr

/-- The WiFi manager's mutable world: the fields of `g_wifi_ctx`, the
file-scope globals of wifi_manager.c (`retry_count`, `isWiFi`,
`isWiFiConnecting`), the NVS entries of the `wifi_config` namespace, and
allocation counters for the synchronization primitives created by
`wifi_manager_init` (used to state that a second init allocates nothing). -/
structure WifiWorld where
  state : WifiState
  retry_count : Nat
  ssid : List Char
  password : List Char
  provisioned : Bool
  initialized : Bool
  /-- whether an event callback is registered (`g_wifi_ctx.callback != NULL`) -/
  callback : Bool
  isWiFi : Bool
  isWiFiConnecting : Bool
  /-- the file-scope `static int retry_count` global (distinct from
  `g_wifi_ctx.retry_count`) -/
  retry_count_global : Int
  nvs_ssid : Option (List Char)
  nvs_password : Option (List Char)
  nvs_provisioned : Option Nat
  mutexAllocs : Nat
  eventGroupAllocs : Nat
  deriving DecidableEq, Repr

/-- `wifi_manager_clear_credentials`: erases the three NVS keys, and (the
NVS open/erase/commit being modelled as succeeding, as the escalation path
assumes) zeroes the in-memory ssid/password, clears `provisioned` and the
`isWiFi` global. -/
def wifi_manager_clear_credentials (w : WifiWorld) : WifiWorld × EspErr :=
  let w := { w with nvs_ssid := none, nvs_password := none, nvs_provisioned := none }
  ({ w with ssid := [], password := [], provisioned := false, isWiFi := false },
   EspErr.ESP_OK)

/-- `wifi_manager_start_provisioning`: fails with `ESP_ERR_INVALID_STATE` if
not initialized; otherwise (the `esp_wifi_set_mode` / `set_config` / `start`
driver calls modelled as succeeding) sets the state to `PROVISIONING`,
starts the webserver and DNS server, and fires `PROVISIONING_STARTED` when a
callback is registered. -/
def wifi_manager_start_provisioning (w : WifiWorld) :
    WifiWorld × List WifiMgrEvent × List WifiAction × EspErr :=
  if !w.initialized then (w, [], [], EspErr.ESP_ERR_INVALID_STATE)
  else
    let w := { w with state := WifiState.PROVISIONING }
    let evs := if w.callback then [WifiMgrEvent.PROVISIONING_STARTED] else []
    (w, evs, [WifiAction.webserverStart, WifiAction.dnsServerStart], EspErr.ESP_OK)

/-- `wifi_event_handler` from wifi_manager.c, parametrized by
`WIFI_RECONNECT_MAX` (the Kconfig constant `CONFIG_WIFI_MAX_RETRY`).
Returns the updated world, the `wifi_manager_event_t` events fired to the
registered callback, and the driver actions issued.

- `WIFI_EVENT_STA_START`: calls `esp_wifi_connect()` and returns.
- `WIFI_EVENT_STA_DISCONNECTED`: ignored outright while in `PROVISIONING`;
  otherwise records `DISCONNECTED`, clears `isWiFi`, increments the retry
  counter while it is below the bound and reconnects, and once the bound is
  reached clears the credentials, stops station mode and starts
  provisioning.
- `IP_EVENT_STA_GOT_IP`: resets the retry counter, records `CONNECTED`,
  sets `isWiFi` and fires `GOT_IP`. -/
def wifi_event_handler (maxRetry : Nat) (w : WifiWorld) (ev : DriverEvent) :
    WifiWorld × List WifiMgrEvent × List WifiAction :=
  match ev with
  | DriverEvent.staStart => (w, [], [WifiAction.espWifiConnect])
  | DriverEvent.staDisconnected =>
    if w.state = WifiState.PROVISIONING then (w, [], [])
    else
      let w := { w with state := WifiState.DISCONNECTED, isWiFi := false }
      let should_retry := w.retry_count < maxRetry
      let w := if should_retry then { w with retry_count := w.retry_count + 1 } else w
      let evs := if w.callback then [WifiMgrEvent.DISCONNECTED] else []
      if should_retry then
        -- the file-scope counter is incremented and `isWiFiConnecting` set,
        -- then both are reset once the counter exceeds the bound minus one
        let g := w.retry_count_global + 1
        let w := { w with
          retry_count_global := if g > (maxRetry : Int) - 1 then 0 else g,
          isWiFiConnecting := if g > (maxRetry : Int) - 1 then false else true }
        (w, evs, [WifiAction.espWifiConnect])
      else
        let (w, _) := wifi_manager_clear_credentials w
        let (w, evs2, acts2, _) := wifi_manager_start_provisioning w
        (w, evs ++ evs2,
         [WifiAction.espWifiDisconnect, WifiAction.espWifiStop] ++ acts2)
  | DriverEvent.gotIp =>
    let w := { w with retry_count := 0, state := WifiState.CONNECTED, isWiFi := true }
    let evs := if w.callback then [WifiMgrEvent.GOT_IP] else []
    (w, evs, [])

/-- Deliver a sequence of driver events to `wifi_event_handler`, collecting
all fired manager events and issued driver actions in order. -/
def wifi_run_events (maxRetry : Nat) (w : WifiWorld) :
    List DriverEvent → WifiWorld × List WifiMgrEvent × List WifiAction
  | [] => (w, [], [])
  | e :: rest =>
    let (w1, evs1, acts1) := wifi_event_handler maxRetry w e
    let (w2, evs2, acts2) := wifi_run_events maxRetry w1 rest
    (w2, evs1 ++ evs2, acts1 ++ acts2)

/-- `load_credentials_from_nvs`: reads ssid (into a 32-byte buffer),
password (64-byte buffer) and the provisioned flag from the `wifi_config`
NVS namespace; a failed read returns early leaving the remaining fields
untouched; `provisioned` is true exactly when the stored u8 equals 1. -/
def load_credentials_from_nvs (w : WifiWorld) : WifiWorld :=
  match w.nvs_ssid with
  | none => w
  | some s =>
    let w := { w with ssid := s.take 31 }
    match w.nvs_password with
    | none => w
    | some p =>
      let w := { w with password := p.take 63 }
      { w with provisioned := w.nvs_provisioned = some 1 }

/-- `wifi_manager_init`: returns `ESP_OK` immediately when already
initialized; otherwise allocates the mutex and event group, brings up the
network stack (the driver calls modelled as succeeding), loads persisted
credentials, and sets the state to `IDLE` with `initialized := true`. -/
def wifi_manager_init (w : WifiWorld) : WifiWorld × EspErr :=
  if w.initialized then (w, EspErr.ESP_OK)
  else
    let w := { w with mutexAllocs := w.mutexAllocs + 1,
                      eventGroupAllocs := w.eventGroupAllocs + 1 }
    let w := load_credentials_from_nvs w
    ({ w with state := WifiState.IDLE, initialized := true }, EspErr.ESP_OK)

/-! ## JSON model and json_helper.c -/

/-- cJSON values. Numbers in the command protocol are integral (cJSON's
`valueint` is what every extractor below reads), so they are modelled as
`Int`. Object keys are C strings (`List Char`). -/
inductive Json where
  | null
  | jbool (b : Bool)
  | num (n : Int)
  | str (s : List Char)
  | arr (elems : List Json)
  | obj (fields : List (List Char × Json))

/-- ASCII lower-casing, as cJSON's case-insensitive key comparison does. -/
def charLower (c : Char) : Char :=
  if 'A' ≤ c ∧ c ≤ 'Z' then Char.ofNat (c.toNat + 32) else c

/-- cJSON key comparison (case-insensitive). -/
def strCaseEq (a b : List Char) : Bool :=
  a.map charLower = b.map charLower

/-- `cJSON_GetObjectItem`: first field whose key matches case-insensitively;
NULL on a non-object. -/
def cJSON_GetObjectItem (j : Json) (key : List Char) : Option Json :=
  match j with
  | Json.obj fields => (fields.find? fun f => strCaseEq f.1 key).map Prod.snd
  | _ => none

/-- `cJSON_IsString`. -/
def cJSON_IsString : Option Json → Bool
  | some (Json.str _) => true
  | _ => false

/-- `json_helper_get_int` from json_helper.c: reads `key` from `object`
(NULL object allowed), returning `default_val` when the object is NULL, the
key is absent, or the value is not a number. -/
def json_helper_get_int (object : Option Json) (key : List Char) (default_val : Int) : Int :=
  match object with
  | none => default_val
  | some o =>
    match cJSON_GetObjectItem o key with
    | some (Json.num n) => n
    | _ => default_val

/-- `json_helper_get_string` from json_helper.c. -/
def json_helper_get_string (object : Option Json) (key : List Char)
    (default_val : List Char) : List Char :=
  match object with
  | none => default_val
  | some o =>
    match cJSON_GetObjectItem o key with
    | some (Json.str s) => s
    | _ => default_val

/-- `json_helper_create_response` from json_helper.c: the response envelope
`{"cmd_id": cmd_id, "status": status}` (both arguments are non-NULL at every
call site, so both fields are present). -/
def json_helper_create_response (cmd_id status : List Char) : Json :=
  Json.obj [("cmd_id".toList, Json.str cmd_id), ("status".toList, Json.str status)]

/-- The result of `json_helper_parse_command`: the `id` and `command`
strings copied out (truncated to the caller's buffers) plus the parsed root
object, from which the caller reads `params`. -/
structure ParsedCommand where
  cmd_id : List Char
  command : List Char
  root : Json

/-- The `valuestring` of a cJSON item (read only after a `cJSON_IsString`
check in the source). -/
def json_valuestring : Option Json → List Char
  | some (Json.str s) => s
  | _ => []

/-- `json_helper_parse_command` from json_helper.c. The wire payload is
`none` when `cJSON_Parse` fails (not valid JSON), `some root` otherwise.
Requires string fields `id` and `command`; copies them with
`strncpy(_, _, len - 1)` into the caller's buffers of size `cmd_id_len` and
`command_len`; returns NULL (`none`) on any failure. -/
def json_helper_parse_command (payload : Option Json)
    (cmd_id_len command_len : Nat) : Option ParsedCommand :=
  if cmd_id_len = 0 ∨ command_len = 0 then none
  else
    match payload with
    | none => none
    | some root =>
      let id_item := cJSON_GetObjectItem root "id".toList
      if !cJSON_IsString id_item then none
      else
        let cmd_item := cJSON_GetObjectItem root "command".toList
        if !cJSON_IsString cmd_item then none
        else
          some ⟨(json_valuestring id_item).take (cmd_id_len - 1),
                (json_valuestring cmd_item).take (command_len - 1), root⟩

/-! ## Command protocol layer: mqtt_manager.c -/

/-- The MQTT manager's file-scope state (mqtt_manager.c): the client handle
(identified by an allocation number, `none` = NULL), a count of clients
constructed by `esp_mqtt_client_init` (used to state resource duplication),
the connected flag, whether a command callback is registered, and the four
topic strings. -/
structure MqttMgr where
  client : Option Nat
  clientsCreated : Nat
  mqtt_connected : Bool
  command_callback : Bool
  topic_data : List Char
  topic_state : List Char
  topic_info : List Char
  topic_command : List Char
  deriving DecidableEq, Repr

/-- `mqtt_manager_build_topics`: `snprintf` of `"%s/%s/<fn>"` from the base
topic and device id into 128-byte buffers (truncation at 127 chars). -/
def mqtt_manager_build_topics (base devId : List Char) (m : MqttMgr) : MqttMgr :=
  let mk := fun (suffix : List Char) =>
    (base ++ ('/' :: devId) ++ suffix).take 127
  { m with topic_data := mk "/data".toList,
           topic_state := mk "/state".toList,
           topic_info := mk "/info".toList,
           topic_command := mk "/command".toList }

/-- `mqtt_manager_init` from mqtt_manager.c: builds the topic strings, then
constructs a fresh client with `esp_mqtt_client_init` (succeeding when
`clientInitOk`); returns `ESP_FAIL` when client construction fails. There
is no already-initialized guard: every call constructs another client. -/
def mqtt_manager_init (base devId : List Char) (clientInitOk : Bool)
    (m : MqttMgr) : MqttMgr × EspErr :=
  let m := mqtt_manager_build_topics base devId m
  if clientInitOk then
    ({ m with client := some m.clientsCreated,
              clientsCreated := m.clientsCreated + 1 }, EspErr.ESP_OK)
  else
    ({ m with client := none }, EspErr.ESP_FAIL)

/-- `mqtt_manager_handle_command` from mqtt_manager.c, up to the callback
invocation: drops the message when no command callback is registered or
when `json_helper_parse_command` (with the 8-byte `cmd_id` and 32-byte
`command` buffers) fails; otherwise hands the parsed command and the
optional `params` object to the registered callback. Returns what the
callback is invoked with, `none` when the message is dropped. -/
def mqtt_manager_handle_command (command_callback : Bool) (payload : Option Json) :
    Option (List Char × List Char × Option Json) :=
  if !command_callback then none
  else
    match json_helper_parse_command payload 8 32 with
    | none => none
    | some pc => some (pc.cmd_id, pc.command, cJSON_GetObjectItem pc.root "params".toList)

/-! ## Device state coordinator and command handlers: task_mqtt.c (no_tls) -/

/-- `MIN_INTERVAL` from mode_manager.h. -/
def MIN_INTERVAL : Int := 1

/-- `MAX_INTERVAL` from mode_manager.h. -/
def MAX_INTERVAL : Int := 3600

/-- `STATE_BACKUP_INTERVAL` (seconds) from mode_manager.h. -/
def STATE_BACKUP_INTERVAL : Nat := 60

/-- `system_state_t` from task_mqtt.c: the coordinator's cached copy. -/
structure SystemState where
  mode : Int
  interval_sec : Int
  fan : Int
  light : Int
  ac : Int
  deriving DecidableEq, Repr

/-- `device_id_t` of device_control: the three actuators. -/
inductive HwDevice where
  | FAN
  | LIGHT
  | AC
  deriving DecidableEq, Repr

/-- The task_mqtt application world: the coordinator's cached
`device_state`, the `interval_changed` flag and `g_interval_time_ms`
global, the ground-truth actuator states held by device_control, the mode
manager's current mode, the transport's connected flag, and logs of the
outbound publishes and hardware writes performed. -/
structure Sys where
  device_state : SystemState
  interval_changed : Bool
  g_interval_time_ms : Nat
  hw_fan : Bool
  hw_light : Bool
  hw_ac : Bool
  mode_mgr_mode : Int
  connected : Bool
  /-- response-topic publishes: (cmd_id, status) pairs in order -/
  responses : List (List Char × List Char)
  /-- state-topic publishes: the (mode, interval, fan, light, ac) records published -/
  statePublishes : List SystemState
  /-- count of data-topic publishes -/
  dataPublishes : Nat
  /-- `device_control_set_state` calls in order -/
  hwWrites : List (HwDevice × Bool)
  deriving DecidableEq, Repr

/-- `MODE_ON` as the integer the enum carries. -/
def MODE_ON : Int := 1

/-- `device_control_set_state`: writes the actuator and is recorded in the
write log (the GPIO write modelled as succeeding). -/
def device_control_set_state (s : Sys) (d : HwDevice) (b : Bool) : Sys :=
  let s := { s with hwWrites := s.hwWrites ++ [(d, b)] }
  match d with
  | HwDevice.FAN => { s with hw_fan := b }
  | HwDevice.LIGHT => { s with hw_light := b }
  | HwDevice.AC => { s with hw_ac := b }

/-- Modelled from the spec: `mqtt_manager_publish_response` of the no_tls
protocol revision, whose mqtt_manager.c is not under src/ (the function is
declared in its mqtt_manager.h and the response topic configured by
`MQTT_TOPIC_RESPONSE_FMT` in mqtt_config.h). Per the spec it publishes the
`json_helper_create_response` envelope on the response topic (QoS 1,
retained) and, like every in-src publish function, skips the publish when
the transport is down. -/
def mqtt_manager_publish_response (s : Sys) (cmd_id status : List Char) : Sys :=
  if s.connected then { s with responses := s.responses ++ [(cmd_id, status)] }
  else s

/-- `task_mqtt_sync_device_states` from task_mqtt.c: re-derives the cached
mode and fan/light/ac from the mode manager and the device_control ground
truth (the `device_control_get_state` reads and the bounded mutex
acquisition modelled as succeeding). -/
def task_mqtt_sync_device_states (s : Sys) : Sys :=
  { s with device_state :=
      { s.device_state with
        mode := if s.mode_mgr_mode = MODE_ON then 1 else 0,
        fan := if s.hw_fan then 1 else 0,
        light := if s.hw_light then 1 else 0,
        ac := if s.hw_ac then 1 else 0 } }

/-- `task_mqtt_publish_current_state` from task_mqtt.c: returns immediately
when the transport is down; otherwise syncs the cached copy from hardware,
snapshots it (the state-publish callback `task_mqtt_on_state_publish` does
not modify the values) and publishes it on the state topic. -/
def task_mqtt_publish_current_state (s : Sys) : Sys :=
  if !s.connected then s
  else
    let s := task_mqtt_sync_device_states s
    { s with statePublishes := s.statePublishes ++ [s.device_state] }

/-- `task_mqtt_on_set_devices` from task_mqtt.c: any negative field is left
alone; non-negative fields are written to the cached copy and then to the
hardware (nonzero = ON); a response is published (`"success"`, the hardware
writes succeeding in this model) followed by a state publish. -/
def task_mqtt_on_set_devices (s : Sys) (cmd_id : List Char) (fan light ac : Int) : Sys :=
  let ds := s.device_state
  let ds := if fan ≥ 0 then { ds with fan := fan } else ds
  let ds := if light ≥ 0 then { ds with light := light } else ds
  let ds := if ac ≥ 0 then { ds with ac := ac } else ds
  let s := { s with device_state := ds }
  let s := if fan ≥ 0 then device_control_set_state s HwDevice.FAN (fan ≠ 0) else s
  let s := if light ≥ 0 then device_control_set_state s HwDevice.LIGHT (light ≠ 0) else s
  let s := if ac ≥ 0 then device_control_set_state s HwDevice.AC (ac ≠ 0) else s
  let s := mqtt_manager_publish_response s cmd_id "success".toList
  task_mqtt_publish_current_state s

/-- `task_mqtt_on_set_interval` from task_mqtt.c: an in-range interval
(`MIN_INTERVAL ≤ n ≤ MAX_INTERVAL`) is written to `interval_sec` and
`g_interval_time_ms`, sets the `interval_changed` flag, and yields a
`"success"` response plus a state publish; out-of-range yields only an
`"error"` response with no state change. -/
def task_mqtt_on_set_interval (s : Sys) (cmd_id : List Char) (interval : Int) : Sys :=
  if MIN_INTERVAL ≤ interval ∧ interval ≤ MAX_INTERVAL then
    let s := { s with
      device_state := { s.device_state with interval_sec := interval },
      g_interval_time_ms := (interval * 1000).toNat,
      interval_changed := true }
    let s := mqtt_manager_publish_response s cmd_id "success".toList
    task_mqtt_publish_current_state s
  else
    mqtt_manager_publish_response s cmd_id "error".toList

/-- `task_mqtt_on_ping` from task_mqtt.c: publishes a `"success"` response
and nothing else. -/
def task_mqtt_on_ping (s : Sys) (cmd_id : List Char) : Sys :=
  mqtt_manager_publish_response s cmd_id "success".toList

/-- Which handler the command dispatcher selects, with the extracted typed
arguments. -/
inductive DispatchTarget where
  | set_device (cmd_id device : List Char) (state : Int)
  | set_devices (cmd_id : List Char) (fan light ac : Int)
  | set_mode (cmd_id : List Char) (mode : Int)
  | set_interval (cmd_id : List Char) (interval : Int)
  | set_timestamp (cmd_id : List Char) (timestamp : Int)
  | get_status (cmd_id : List Char)
  | ping (cmd_id : List Char)
  | reboot (cmd_id : List Char)
  | factory_reset (cmd_id : List Char)
  | unknown (cmd_id command : List Char)
  deriving DecidableEq, Repr

/-- Modelled from the spec: the command-dispatch switch of the no_tls
protocol revision's mqtt_callback component. That revision's
mqtt_callback.c is not under src/ — only its header (declaring the ping
registration/invocation slots) and its caller task_mqtt.c (which registers
`task_mqtt_on_ping`) are. Per the spec the dispatcher switches on the
`command` string, exact and case-sensitive, over the fixed vocabulary
`set_device`, `set_devices`, `set_mode`, `set_interval`, `set_timestamp`,
`get_status`, `ping`, `reboot`, `factory_reset`, extracting parameters with
per-field defaults (as `mqtt_callback_internal_command_handler` of the
in-src revision does for the commands both revisions share); unknown
commands are logged and dropped. -/
def mqtt_callback_command_dispatch (cmd_id command : List Char)
    (params : Option Json) : DispatchTarget :=
  if command = "set_device".toList then
    DispatchTarget.set_device cmd_id
      (json_helper_get_string params "device".toList [])
      (json_helper_get_int params "state".toList 0)
  else if command = "set_devices".toList then
    DispatchTarget.set_devices cmd_id
      (json_helper_get_int params "fan".toList (-1))
      (json_helper_get_int params "light".toList (-1))
      (json_helper_get_int params "ac".toList (-1))
  else if command = "set_mode".toList then
    DispatchTarget.set_mode cmd_id (json_helper_get_int params "mode".toList 0)
  else if command = "set_interval".toList then
    DispatchTarget.set_interval cmd_id (json_helper_get_int params "interval".toList 0)
  else if command = "set_timestamp".toList then
    DispatchTarget.set_timestamp cmd_id (json_helper_get_int params "timestamp".toList 0)
  else if command = "get_status".toList then
    DispatchTarget.get_status cmd_id
  else if command = "ping".toList then
    DispatchTarget.ping cmd_id
  else if command = "reboot".toList then
    DispatchTarget.reboot cmd_id
  else if command = "factory_reset".toList then
    DispatchTarget.factory_reset cmd_id
  else
    DispatchTarget.unknown cmd_id command

/-- Execute the dispatched handler on the application world. Only the
handlers exercised by the properties under verification mutate `Sys`
through their full embedding above; an `unknown` target is dropped without
effect, exactly as in the source. -/
def dispatch_exec (s : Sys) : DispatchTarget → Sys
  | DispatchTarget.set_devices cmd_id fan light ac =>
      task_mqtt_on_set_devices s cmd_id fan light ac
  | DispatchTarget.set_interval cmd_id interval =>
      task_mqtt_on_set_interval s cmd_id interval
  | DispatchTarget.ping cmd_id => task_mqtt_on_ping s cmd_id
  | DispatchTarget.unknown _ _ => s
  | _ => s

/-- The inbound command pipeline of the no_tls revision: the
parse-or-drop stage of `mqtt_manager_handle_command` (from the in-src
mqtt_manager.c) feeding the dispatcher. Returns the resulting world and
the dispatched target (`none` when the message was dropped before
dispatch). -/
def handle_command_message (s : Sys) (command_callback : Bool)
    (payload : Option Json) : Sys × Option DispatchTarget :=
  match mqtt_manager_handle_command command_callback payload with
  | none => (s, none)
  | some (cmd_id, command, params) =>
    let t := mqtt_callback_command_dispatch cmd_id command params
    (dispatch_exec s t, some t)

/-! ## Periodic publisher: task_mqtt_run from task_mqtt.c -/

/-- `pdMS_TO_TICKS`: milliseconds to ticks at `configTICK_RATE_HZ`. -/
def pdMS_TO_TICKS (tickHz ms : Nat) : Nat := ms * tickHz / 1000

/-- The loop-local timing state of `task_mqtt_run`. -/
structure RunState where
  last_data_publish : Nat
  last_state_publish : Nat
  deriving DecidableEq, Repr

/-- `TickType_t` subtraction (uint32 wraparound). -/
def tickSub (now last : Nat) : Nat := (now + 2 ^ 32 - last % 2 ^ 32) % 2 ^ 32

/-- One iteration of the `while` body of `task_mqtt_run`, at tick count
`now`: when connected, reads the live interval, resets the data timer if
`interval_changed` was set, publishes data when the elapsed ticks reach the
interval — but only actually publishes while `isModeON`; the
`last_data_publish` assignment sits outside that mode check — and publishes
the state backup every `STATE_BACKUP_INTERVAL` seconds. Returns the timing
state, the cleared-or-kept `interval_changed` flag, and whether data/state
were published this tick. -/
def task_mqtt_run_tick (tickHz : Nat) (connected isModeON : Bool)
    (g_interval_time_ms : Nat) (interval_changed : Bool) (now : Nat)
    (rs : RunState) : RunState × Bool × Bool × Bool :=
  if !connected then (rs, interval_changed, false, false)
  else
    let current_interval_ms := g_interval_time_ms
    let reset := interval_changed
    let interval_changed := false
    let rs := if reset then { rs with last_data_publish := now } else rs
    let data_elapsed := tickSub now rs.last_data_publish
    let dataHit := data_elapsed ≥ pdMS_TO_TICKS tickHz current_interval_ms
    let dataPublished := dataHit && isModeON
    let rs := if dataHit then { rs with last_data_publish := now } else rs
    let state_elapsed := tickSub now rs.last_state_publish
    let stateHit := state_elapsed ≥ pdMS_TO_TICKS tickHz (STATE_BACKUP_INTERVAL * 1000)
    let rs := if stateHit then { rs with last_state_publish := now } else rs
    (rs, interval_changed, dataPublished, stateHit)

/-! ## Mode manager: mode_manager.c -/

/-- The mode manager's file-scope state plus the `mode_config` NVS entry,
the `isModeON` global, and a log of invocations of the registered
mode-change callback. -/
structure ModeMgr where
  current_mode : Int
  initialized : Bool
  isModeON : Bool
  /-- whether a change callback is registered -/
  change_callback : Bool
  nvs_mode : Option Int
  callbackCalls : List (Int × Int)
  deriving DecidableEq, Repr

/-- `MODE_OFF` as the integer the enum carries. -/
def MODE_OFF : Int := 0

/-- `mode_manager_set_mode` from mode_manager.c: `ESP_ERR_INVALID_STATE`
before init; `ESP_ERR_INVALID_ARG` for an argument that is neither
`MODE_OFF` nor `MODE_ON` (nothing touched); an argument equal to the
current mode refreshes `isModeON` and returns `ESP_OK` without saving or
notifying; otherwise the mode is changed, `isModeON` updated, the mode
saved to NVS (the NVS open/set/commit modelled as succeeding) and the
registered change callback invoked with (old, new). -/
def mode_manager_set_mode (m : ModeMgr) (mode : Int) : ModeMgr × EspErr :=
  if !m.initialized then (m, EspErr.ESP_ERR_INVALID_STATE)
  else if mode ≠ MODE_OFF ∧ mode ≠ MODE_ON then (m, EspErr.ESP_ERR_INVALID_ARG)
  else if m.current_mode = mode then
    ({ m with isModeON := mode = MODE_ON }, EspErr.ESP_OK)
  else
    let old := m.current_mode
    let m := { m with current_mode := mode, isModeON := mode = MODE_ON }
    let m := { m with nvs_mode := some mode }
    let m := if m.change_callback then
               { m with callbackCalls := m.callbackCalls ++ [(old, mode)] }
             else m
    (m, EspErr.ESP_OK)

/-! ## Concrete worlds used by counterexamples and witnesses -/

/-- A provisioned, connected WiFi world (credentials `Home`/`secret`
mirrored in NVS, retry counter 0, event callback registered). -/
def wifiConnWorld : WifiWorld :=
  { state := WifiState.CONNECTED, retry_count := 0,
    ssid := "Home".toList, password := "secret".toList,
    provisioned := true, initialized := true, callback := true,
    isWiFi := true, isWiFiConnecting := false, retry_count_global := 0,
    nvs_ssid := some "Home".toList, nvs_password := some "secret".toList,
    nvs_provisioned := some 1, mutexAllocs := 1, eventGroupAllocs := 1 }

/-- A freshly constructed (all-zero) MQTT manager state. -/
def mqttMgr0 : MqttMgr :=
  { client := none, clientsCreated := 0, mqtt_connected := false,
    command_callback := false, topic_data := [], topic_state := [],
    topic_info := [], topic_command := [] }

/-- A connected application world with everything off and the cached copy
consistent with the hardware. -/
def sys0 : Sys :=
  { device_state := { mode := 1, interval_sec := 5, fan := 0, light := 0, ac := 0 },
    interval_changed := false, g_interval_time_ms := 5000,
    hw_fan := false, hw_light := false, hw_ac := false,
    mode_mgr_mode := 1, connected := true,
    responses := [], statePublishes := [], dataPublishes := 0, hwWrites := [] }

/-! ## C4 -/

/-- C4: a WiFi disconnect event delivered while the state equals
Provisioning leaves the whole connection context unchanged — same state,
no retry increment, no event fired to the callback, no driver action (in
particular no reconnect attempt) issued. -/
theorem disconnect_ignored_in_provisioning (maxRetry : Nat) (w : WifiWorld)
    (h : w.state = WifiState.PROVISIONING) :
    wifi_event_handler maxRetry w DriverEvent.staDisconnected = (w, [], []) := by
  simp [wifi_event_handler, h]

/-- Witness for C4 at a concrete provisioning-mode world. -/
theorem disconnect_ignored_in_provisioning_witness :
    ({ wifiConnWorld with state := WifiState.PROVISIONING }.state
        = WifiState.PROVISIONING) ∧
    wifi_event_handler 3 { wifiConnWorld with state := WifiState.PROVISIONING }
        DriverEvent.staDisconnected
      = ({ wifiConnWorld with state := WifiState.PROVISIONING }, [], []) :=
  ⟨rfl, disconnect_ignored_in_provisioning 3 _ rfl⟩

/-! ## C1 -/

/-- C1, counterexample: from `CONNECTED` with the retry counter at 0 and
`WIFI_RECONNECT_MAX = 3`, three consecutive disconnect events fire no
`PROVISIONING_STARTED` at all — the machine is left in `DISCONNECTED`
with the counter saturated at 3 and the credentials intact, because the
escalation branch runs only on a disconnect that arrives with the counter
already at the bound. -/
theorem retry_bound_three_disconnects_refuted :
    (wifi_run_events 3 wifiConnWorld
        [DriverEvent.staDisconnected, DriverEvent.staDisconnected,
         DriverEvent.staDisconnected]).2.1.count
        WifiMgrEvent.PROVISIONING_STARTED = 0 ∧
    (wifi_run_events 3 wifiConnWorld
        [DriverEvent.staDisconnected, DriverEvent.staDisconnected,
         DriverEvent.staDisconnected]).1.state = WifiState.DISCONNECTED ∧
    (wifi_run_events 3 wifiConnWorld
        [DriverEvent.staDisconnected, DriverEvent.staDisconnected,
         DriverEvent.staDisconnected]).1.provisioned = true ∧
    (wifi_run_events 3 wifiConnWorld
        [DriverEvent.staDisconnected, DriverEvent.staDisconnected,
         DriverEvent.staDisconnected]).1.ssid = "Home".toList ∧
    (wifi_run_events 3 wifiConnWorld
        [DriverEvent.staDisconnected, DriverEvent.staDisconnected,
         DriverEvent.staDisconnected]).1.retry_count = 3 := by
  decide

/-- C1 as amended: with `WIFI_RECONNECT_MAX = 3`, starting from a connected
world with the retry counter at 0, a run of four consecutive disconnect
events (no intervening GotIP) fires exactly one `PROVISIONING_STARTED`,
clears the stored credentials (ssid and password zeroed, provisioned
false) and leaves the machine in `PROVISIONING`; and a GotIP event always
resets the retry counter to 0. -/
theorem retry_bound_amended (w : WifiWorld)
    (hstate : w.state = WifiState.CONNECTED) (hretry : w.retry_count = 0)
    (hinit : w.initialized = true) (hcb : w.callback = true) :
    ((wifi_run_events 3 w
        [DriverEvent.staDisconnected, DriverEvent.staDisconnected,
         DriverEvent.staDisconnected, DriverEvent.staDisconnected]).2.1.count
        WifiMgrEvent.PROVISIONING_STARTED = 1 ∧
     (wifi_run_events 3 w
        [DriverEvent.staDisconnected, DriverEvent.staDisconnected,
         DriverEvent.staDisconnected, DriverEvent.staDisconnected]).1.ssid = [] ∧
     (wifi_run_events 3 w
        [DriverEvent.staDisconnected, DriverEvent.staDisconnected,
         DriverEvent.staDisconnected, DriverEvent.staDisconnected]).1.password = [] ∧
     (wifi_run_events 3 w
        [DriverEvent.staDisconnected, DriverEvent.staDisconnected,
         DriverEvent.staDisconnected, DriverEvent.staDisconnected]).1.provisioned
        = false ∧
     (wifi_run_events 3 w
        [DriverEvent.staDisconnected, DriverEvent.staDisconnected,
         DriverEvent.staDisconnected, DriverEvent.staDisconnected]).1.state
        = WifiState.PROVISIONING) ∧
    (∀ w2 : WifiWorld,
      (wifi_event_handler 3 w2 DriverEvent.gotIp).1.retry_count = 0) := by
  constructor
  · simp [wifi_run_events, wifi_event_handler, wifi_manager_clear_credentials,
      wifi_manager_start_provisioning, hstate, hretry, hinit, hcb]
  · intro w2
    simp [wifi_event_handler]

/-- Witness for C1's amended theorem at the concrete connected world. -/
theorem retry_bound_amended_witness :
    wifiConnWorld.state = WifiState.CONNECTED ∧
    (wifi_run_events 3 wifiConnWorld
        [DriverEvent.staDisconnected, DriverEvent.staDisconnected,
         DriverEvent.staDisconnected, DriverEvent.staDisconnected]).2.1.count
        WifiMgrEvent.PROVISIONING_STARTED = 1 ∧
    (wifi_run_events 3 wifiConnWorld
        [DriverEvent.staDisconnected, DriverEvent.staDisconnected,
         DriverEvent.staDisconnected, DriverEvent.staDisconnected]).1.state
        = WifiState.PROVISIONING :=
  ⟨rfl, (retry_bound_amended wifiConnWorld rfl rfl rfl rfl).1.1,
    (retry_bound_amended wifiConnWorld rfl rfl rfl rfl).1.2.2.2.2⟩

/-! ## C8 -/

/-- C8, counterexample: a second `mqtt_manager_init` call is not a no-op:
it returns `ESP_OK` but constructs a second underlying MQTT client
(`esp_mqtt_client_init` is called again — there is no already-initialized
guard), so resources are duplicated and the stored client handle changes. -/
theorem idempotent_init_refuted :
    (mqtt_manager_init "smarthome".toList "esp32".toList true
        (mqtt_manager_init "smarthome".toList "esp32".toList true mqttMgr0).1).2
      = EspErr.ESP_OK ∧
    (mqtt_manager_init "smarthome".toList "esp32".toList true
        (mqtt_manager_init "smarthome".toList "esp32".toList true mqttMgr0).1).1
      ≠ (mqtt_manager_init "smarthome".toList "esp32".toList true mqttMgr0).1 ∧
    (mqtt_manager_init "smarthome".toList "esp32".toList true
        (mqtt_manager_init "smarthome".toList "esp32".toList true mqttMgr0).1).1.clientsCreated
      = 2 := by
  decide

/-- C8 as amended: a second `wifi_manager_init` call is a no-op returning
success (nothing re-allocated, all state left unchanged); a second
`mqtt_manager_init` call also returns success but re-builds the topic
strings and constructs a fresh underlying client, duplicating the client
resource. -/
theorem idempotent_init_amended :
    (∀ w : WifiWorld, w.initialized = true →
      wifi_manager_init w = (w, EspErr.ESP_OK)) ∧
    (∀ (base devId : List Char) (m : MqttMgr),
      (mqtt_manager_init base devId true
          (mqtt_manager_init base devId true m).1).2 = EspErr.ESP_OK ∧
      (mqtt_manager_init base devId true
          (mqtt_manager_init base devId true m).1).1.clientsCreated
        = m.clientsCreated + 2 ∧
      (mqtt_manager_init base devId true
          (mqtt_manager_init base devId true m).1).1.client
        = some (m.clientsCreated + 1)) := by
  constructor
  · intro w h
    simp [wifi_manager_init, h]
  · intro base devId m
    simp [mqtt_manager_init, mqtt_manager_build_topics]

/-- Witness for C8's amended theorem: the already-initialized WiFi world
and a concrete double MQTT init. -/
theorem idempotent_init_amended_witness :
    wifiConnWorld.initialized = true ∧
    wifi_manager_init wifiConnWorld = (wifiConnWorld, EspErr.ESP_OK) ∧
    (mqtt_manager_init "smarthome".toList "esp32".toList true
        (mqtt_manager_init "smarthome".toList "esp32".toList true mqttMgr0).1).1.clientsCreated
      = 0 + 2 :=
  ⟨rfl, idempotent_init_amended.1 wifiConnWorld rfl,
    (idempotent_init_amended.2 "smarthome".toList "esp32".toList mqttMgr0).2.1⟩

/-! ## C3 -/

/-- C3, counterexample: on a connected tick (1000 Hz tick rate, 5000 ms
interval) where the interval has elapsed but device mode is OFF, no data
publish happens yet `last_data_publish` still advances from 0 to `now` —
the assignment sits outside the mode check, so the skipped window does
not stay pending. -/
theorem data_timer_skip_advances_refuted :
    (task_mqtt_run_tick 1000 true false 5000 false 5000
        { last_data_publish := 0, last_state_publish := 0 }).2.2.1 = false ∧
    (task_mqtt_run_tick 1000 true false 5000 false 5000
        { last_data_publish := 0, last_state_publish := 0 }).1.last_data_publish
      = 5000 := by
  decide

/-- C3 as amended: on a connected tick with the interval-changed flag
clear, `last_data_publish` advances to `now` exactly when the elapsed
ticks reach the current interval — whether or not telemetry is actually
published (mode OFF skips the publish but still advances the timestamp) —
and is left unchanged when the interval has not elapsed. -/
theorem data_timer_advance_amended (tickHz : Nat) (isModeON : Bool)
    (g_ms now : Nat) (rs : RunState) :
    (tickSub now rs.last_data_publish ≥ pdMS_TO_TICKS tickHz g_ms →
      (task_mqtt_run_tick tickHz true isModeON g_ms false now rs).1.last_data_publish
          = now ∧
      (task_mqtt_run_tick tickHz true isModeON g_ms false now rs).2.2.1 = isModeON) ∧
    (tickSub now rs.last_data_publish < pdMS_TO_TICKS tickHz g_ms →
      (task_mqtt_run_tick tickHz true isModeON g_ms false now rs).1.last_data_publish
          = rs.last_data_publish ∧
      (task_mqtt_run_tick tickHz true isModeON g_ms false now rs).2.2.1 = false) := by
  constructor
  · intro h
    simp [task_mqtt_run_tick, h]
    split <;> rfl
  · intro h
    simp [task_mqtt_run_tick, Nat.not_le.mpr h]
    split <;> rfl

/-- Witness for C3's amended theorem: both the elapsed (mode OFF, timer
advances, nothing published) and the not-elapsed (timer unchanged) cases
at concrete ticks. -/
theorem data_timer_advance_amended_witness :
    (tickSub 5000 0 ≥ pdMS_TO_TICKS 1000 5000 ∧
      (task_mqtt_run_tick 1000 true false 5000 false 5000
          { last_data_publish := 0, last_state_publish := 0 }).1.last_data_publish
        = 5000) ∧
    (tickSub 4000 0 < pdMS_TO_TICKS 1000 5000 ∧
      (task_mqtt_run_tick 1000 true false 5000 false 4000
          { last_data_publish := 0, last_state_publish := 0 }).1.last_data_publish
        = 0) :=
  ⟨⟨by decide,
    ((data_timer_advance_amended 1000 false 5000 5000
        { last_data_publish := 0, last_state_publish := 0 }).1 (by decide)).1⟩,
   ⟨by decide,
    ((data_timer_advance_amended 1000 false 5000 4000
        { last_data_publish := 0, last_state_publish := 0 }).2 (by decide)).1⟩⟩

/-! ## C10 -/

/-- C10: after initialization, `mode_manager_set_mode` rejects an argument
that is neither `MODE_OFF` nor `MODE_ON` with `ESP_ERR_INVALID_ARG`
leaving the whole manager state (current mode, persisted mode, `isModeON`)
unchanged; and an argument equal to the current mode returns `ESP_OK`
without writing the durable store and without invoking the registered
mode-change callback. -/
theorem set_mode_invalid_and_same_mode (m : ModeMgr) (mode : Int)
    (hinit : m.initialized = true) :
    ((mode ≠ MODE_OFF ∧ mode ≠ MODE_ON) →
      mode_manager_set_mode m mode = (m, EspErr.ESP_ERR_INVALID_ARG)) ∧
    (mode = m.current_mode → (mode = MODE_OFF ∨ mode = MODE_ON) →
      (mode_manager_set_mode m mode).2 = EspErr.ESP_OK ∧
      (mode_manager_set_mode m mode).1.nvs_mode = m.nvs_mode ∧
      (mode_manager_set_mode m mode).1.callbackCalls = m.callbackCalls ∧
      (mode_manager_set_mode m mode).1.current_mode = m.current_mode) := by
  constructor
  · intro h
    simp [mode_manager_set_mode, hinit, h]
  · intro h hv
    subst h
    have hne : ¬(m.current_mode ≠ MODE_OFF ∧ m.current_mode ≠ MODE_ON) := by tauto
    simp [mode_manager_set_mode, hinit, hne]

/-- An initialized mode manager currently in `MODE_ON`, with a registered
change callback and the mode mirrored in NVS. -/
def modeMgrOn : ModeMgr :=
  { current_mode := 1, initialized := true, isModeON := true,
    change_callback := true, nvs_mode := some 1, callbackCalls := [] }

/-- Witness for C10 at a concrete initialized manager: the invalid
argument 2 is rejected without any change, and re-setting the current
mode succeeds without persisting or notifying. -/
theorem set_mode_invalid_and_same_mode_witness :
    mode_manager_set_mode modeMgrOn 2 = (modeMgrOn, EspErr.ESP_ERR_INVALID_ARG) ∧
    (mode_manager_set_mode modeMgrOn 1).2 = EspErr.ESP_OK ∧
    (mode_manager_set_mode modeMgrOn 1).1.nvs_mode = some 1 ∧
    (mode_manager_set_mode modeMgrOn 1).1.callbackCalls = [] :=
  ⟨(set_mode_invalid_and_same_mode modeMgrOn 2 rfl).1 (by decide),
   ((set_mode_invalid_and_same_mode modeMgrOn 1 rfl).2 rfl (by decide)).1,
   ((set_mode_invalid_and_same_mode modeMgrOn 1 rfl).2 rfl (by decide)).2.1,
   ((set_mode_invalid_and_same_mode modeMgrOn 1 rfl).2 rfl (by decide)).2.2.1⟩

/-! ## C5 -/

/-- C5: for `set_interval` with argument `n`, an out-of-range `n`
(`n < MIN_INTERVAL` or `n > MAX_INTERVAL`) leaves the whole world
unchanged except for an appended `"error"` response (in particular
`interval_sec` and the interval-changed flag are untouched), while an
in-range `n` (endpoints included) sets `interval_sec` to `n`, sets the
interval-changed flag, and appends a `"success"` response. -/
theorem set_interval_bounds (s : Sys) (cmd_id : List Char) (n : Int)
    (hc : s.connected = true) :
    ((n < MIN_INTERVAL ∨ n > MAX_INTERVAL) →
      task_mqtt_on_set_interval s cmd_id n
        = { s with responses := s.responses ++ [(cmd_id, "error".toList)] }) ∧
    (MIN_INTERVAL ≤ n ∧ n ≤ MAX_INTERVAL →
      (task_mqtt_on_set_interval s cmd_id n).device_state.interval_sec = n ∧
      (task_mqtt_on_set_interval s cmd_id n).interval_changed = true ∧
      (task_mqtt_on_set_interval s cmd_id n).responses
        = s.responses ++ [(cmd_id, "success".toList)]) := by
  constructor
  · intro h
    have hn : ¬(MIN_INTERVAL ≤ n ∧ n ≤ MAX_INTERVAL) := by
      simp only [MIN_INTERVAL, MAX_INTERVAL] at *
      omega
    simp [task_mqtt_on_set_interval, hn, mqtt_manager_publish_response, hc]
  · intro h
    simp [task_mqtt_on_set_interval, h, mqtt_manager_publish_response,
      task_mqtt_publish_current_state, task_mqtt_sync_device_states, hc]

/-- Witness for C5 at the concrete connected world: `MIN_INTERVAL - 1 = 0`
is rejected without touching `interval_sec`, and `MIN_INTERVAL = 1` is
accepted. -/
theorem set_interval_bounds_witness :
    ((0 : Int) < MIN_INTERVAL ∧
      task_mqtt_on_set_interval sys0 "i1".toList 0
        = { sys0 with responses := [("i1".toList, "error".toList)] }) ∧
    (MIN_INTERVAL ≤ (1 : Int) ∧ (1 : Int) ≤ MAX_INTERVAL ∧
      (task_mqtt_on_set_interval sys0 "i2".toList 1).device_state.interval_sec = 1 ∧
      (task_mqtt_on_set_interval sys0 "i2".toList 1).interval_changed = true ∧
      (task_mqtt_on_set_interval sys0 "i2".toList 1).responses
        = [("i2".toList, "success".toList)]) :=
  ⟨⟨by decide,
    (set_interval_bounds sys0 "i1".toList 0 rfl).1 (Or.inl (by decide))⟩,
   ⟨by decide, by decide,
    ((set_interval_bounds sys0 "i2".toList 1 rfl).2 ⟨by decide, by decide⟩).1,
    ((set_interval_bounds sys0 "i2".toList 1 rfl).2 ⟨by decide, by decide⟩).2.1,
    ((set_interval_bounds sys0 "i2".toList 1 rfl).2 ⟨by decide, by decide⟩).2.2⟩⟩

/-! ## C6 -/

/-- A connected world whose cached fan state (1) has diverged from the fan
actuator's ground truth (off) — as happens when the button path writes the
hardware directly. -/
def sysDivergent : Sys :=
  { sys0 with device_state := { sys0.device_state with fan := 1 } }

/-- C6, counterexample: on the divergent world, `set_devices{fan:-1,
light:5, ac:-1}` leaves the fan actuator unwritten (only the light write is
issued) yet the cached fan field does not keep its prior value 1 — the
end-of-command hardware sync rewrites it to 0 — and the cached light field
ends at 1, not at the non-negative argument value 5. -/
theorem set_devices_sentinel_refuted :
    sysDivergent.device_state.fan = 1 ∧
    (task_mqtt_on_set_devices sysDivergent "d1".toList (-1) 5 (-1)).device_state.fan
      = 0 ∧
    (task_mqtt_on_set_devices sysDivergent "d1".toList (-1) 5 (-1)).device_state.light
      = 1 ∧
    (task_mqtt_on_set_devices sysDivergent "d1".toList (-1) 5 (-1)).hwWrites
      = [(HwDevice.LIGHT, true)] := by
  decide

/-- On a connected world, `mqtt_manager_publish_response` appends exactly
one (cmd_id, status) pair. -/
theorem mqtt_manager_publish_response_eval (s : Sys) (cmd_id st : List Char)
    (hc : s.connected = true) :
    mqtt_manager_publish_response s cmd_id st
      = { s with responses := s.responses ++ [(cmd_id, st)] } := by
  simp [mqtt_manager_publish_response, hc]

/-- On a connected world, `task_mqtt_publish_current_state` re-derives the
cached copy from hardware and mode and appends that snapshot to the state
topic log. -/
theorem task_mqtt_publish_current_state_eval (s : Sys) (hc : s.connected = true) :
    task_mqtt_publish_current_state s =
      { s with
        device_state :=
          { mode := if s.mode_mgr_mode = MODE_ON then 1 else 0,
            interval_sec := s.device_state.interval_sec,
            fan := if s.hw_fan then 1 else 0,
            light := if s.hw_light then 1 else 0,
            ac := if s.hw_ac then 1 else 0 },
        statePublishes := s.statePublishes ++
          [{ mode := if s.mode_mgr_mode = MODE_ON then 1 else 0,
             interval_sec := s.device_state.interval_sec,
             fan := if s.hw_fan then 1 else 0,
             light := if s.hw_light then 1 else 0,
             ac := if s.hw_ac then 1 else 0 }] } := by
  simp [task_mqtt_publish_current_state, task_mqtt_sync_device_states, hc]

/-- Closed form of `task_mqtt_on_set_devices` on a connected world: the
hardware fields take the non-negative arguments (nonzero = ON), the cached
copy is re-derived from the final hardware and mode by the end-of-command
sync, one hardware write per non-negative field is issued in fan, light,
ac order, and a `"success"` response plus one state publish are appended. -/
theorem task_mqtt_on_set_devices_eval (s : Sys) (cmd_id : List Char)
    (fan light ac : Int) (hc : s.connected = true) :
    task_mqtt_on_set_devices s cmd_id fan light ac =
      { s with
        device_state :=
          { mode := if s.mode_mgr_mode = MODE_ON then 1 else 0,
            interval_sec := s.device_state.interval_sec,
            fan := if (if fan ≥ 0 then decide ¬(fan = 0) else s.hw_fan) then 1 else 0,
            light := if (if light ≥ 0 then decide ¬(light = 0) else s.hw_light) then 1 else 0,
            ac := if (if ac ≥ 0 then decide ¬(ac = 0) else s.hw_ac) then 1 else 0 },
        hw_fan := if fan ≥ 0 then decide ¬(fan = 0) else s.hw_fan,
        hw_light := if light ≥ 0 then decide ¬(light = 0) else s.hw_light,
        hw_ac := if ac ≥ 0 then decide ¬(ac = 0) else s.hw_ac,
        responses := s.responses ++ [(cmd_id, "success".toList)],
        statePublishes := s.statePublishes ++
          [{ mode := if s.mode_mgr_mode = MODE_ON then 1 else 0,
             interval_sec := s.device_state.interval_sec,
             fan := if (if fan ≥ 0 then decide ¬(fan = 0) else s.hw_fan) then 1 else 0,
             light := if (if light ≥ 0 then decide ¬(light = 0) else s.hw_light) then 1 else 0,
             ac := if (if ac ≥ 0 then decide ¬(ac = 0) else s.hw_ac) then 1 else 0 }],
        hwWrites := s.hwWrites
          ++ (if fan ≥ 0 then [(HwDevice.FAN, decide ¬(fan = 0))] else [])
          ++ (if light ≥ 0 then [(HwDevice.LIGHT, decide ¬(light = 0))] else [])
          ++ (if ac ≥ 0 then [(HwDevice.AC, decide ¬(ac = 0))] else []) } := by
  by_cases h1 : fan ≥ 0 <;> by_cases h2 : light ≥ 0 <;> by_cases h3 : ac ≥ 0 <;>
    simp [task_mqtt_on_set_devices, device_control_set_state,
      mqtt_manager_publish_response_eval, task_mqtt_publish_current_state_eval,
      h1, h2, h3, hc]

/-- C6 as amended: provided the cached fan/light/ac agree with the hardware
actuators at command receipt (the invariant the pre-publish sync
re-establishes) and each argument is a negative sentinel or a 0/1 state,
`set_devices` leaves each negative field at its prior value in both the
cache and the hardware with no actuator write for it, and sets each 0/1
field in both; exactly one response (`"success"`) is appended. -/
theorem set_devices_sentinel_amended (s : Sys) (cmd_id : List Char)
    (fan light ac : Int) (hc : s.connected = true)
    (hfan : s.device_state.fan = if s.hw_fan then 1 else 0)
    (hlight : s.device_state.light = if s.hw_light then 1 else 0)
    (hac : s.device_state.ac = if s.hw_ac then 1 else 0)
    (hf : fan < 0 ∨ fan = 0 ∨ fan = 1)
    (hl : light < 0 ∨ light = 0 ∨ light = 1)
    (ha : ac < 0 ∨ ac = 0 ∨ ac = 1) :
    ((task_mqtt_on_set_devices s cmd_id fan light ac).device_state.fan
        = if fan < 0 then s.device_state.fan else fan) ∧
    ((task_mqtt_on_set_devices s cmd_id fan light ac).device_state.light
        = if light < 0 then s.device_state.light else light) ∧
    ((task_mqtt_on_set_devices s cmd_id fan light ac).device_state.ac
        = if ac < 0 then s.device_state.ac else ac) ∧
    ((task_mqtt_on_set_devices s cmd_id fan light ac).hw_fan
        = if fan < 0 then s.hw_fan else decide (fan = 1)) ∧
    ((task_mqtt_on_set_devices s cmd_id fan light ac).hw_light
        = if light < 0 then s.hw_light else decide (light = 1)) ∧
    ((task_mqtt_on_set_devices s cmd_id fan light ac).hw_ac
        = if ac < 0 then s.hw_ac else decide (ac = 1)) ∧
    ((task_mqtt_on_set_devices s cmd_id fan light ac).hwWrites
        = s.hwWrites ++ (if fan < 0 then [] else [(HwDevice.FAN, decide ¬(fan = 0))])
            ++ (if light < 0 then [] else [(HwDevice.LIGHT, decide ¬(light = 0))])
            ++ (if ac < 0 then [] else [(HwDevice.AC, decide ¬(ac = 0))])) ∧
    ((task_mqtt_on_set_devices s cmd_id fan light ac).responses
        = s.responses ++ [(cmd_id, "success".toList)]) := by
  rw [task_mqtt_on_set_devices_eval s cmd_id fan light ac hc]
  refine ⟨?_, ?_, ?_, ?_, ?_, ?_, ?_, rfl⟩ <;>
    [rcases hf with hf | rfl | rfl; rcases hl with hl | rfl | rfl;
     rcases ha with ha | rfl | rfl; rcases hf with hf | rfl | rfl;
     rcases hl with hl | rfl | rfl; rcases ha with ha | rfl | rfl;
     (rcases hf with hf | rfl | rfl <;> rcases hl with hl | rfl | rfl <;>
       rcases ha with ha | rfl | rfl)] <;>
    (try simp_all) <;> (try split_ifs) <;>
    first
      | rfl
      | omega

/-- Witness for C6's amended theorem: on the consistent world,
`set_devices{fan:-1, light:1, ac:-1}` changes only light. -/
theorem set_devices_sentinel_amended_witness :
    ((task_mqtt_on_set_devices sys0 "d2".toList (-1) 1 (-1)).device_state.fan
        = sys0.device_state.fan) ∧
    ((task_mqtt_on_set_devices sys0 "d2".toList (-1) 1 (-1)).device_state.light = 1) ∧
    ((task_mqtt_on_set_devices sys0 "d2".toList (-1) 1 (-1)).device_state.ac
        = sys0.device_state.ac) ∧
    ((task_mqtt_on_set_devices sys0 "d2".toList (-1) 1 (-1)).hwWrites
        = [(HwDevice.LIGHT, true)]) :=
  have h := set_devices_sentinel_amended sys0 "d2".toList (-1) 1 (-1) rfl
    (by decide) (by decide) (by decide)
    (Or.inl (by decide)) (Or.inr (Or.inr (by decide))) (Or.inl (by decide))
  ⟨h.1, h.2.1, h.2.2.1, h.2.2.2.2.2.2.1⟩

/-! ## C7 -/

/-- The malformed-input condition of the claim: the payload is not valid
JSON (`cJSON_Parse` returned NULL), or its `id` or `command` field is
missing or not a string. -/
def command_payload_malformed (payload : Option Json) : Prop :=
  match payload with
  | none => True
  | some root =>
      cJSON_IsString (cJSON_GetObjectItem root "id".toList) = false ∨
      cJSON_IsString (cJSON_GetObjectItem root "command".toList) = false

/-- A malformed payload makes `json_helper_parse_command` return NULL. -/
theorem parse_command_malformed_none (payload : Option Json)
    (h : command_payload_malformed payload) :
    json_helper_parse_command payload 8 32 = none := by
  cases payload with
  | none => rfl
  | some root =>
    rcases h with h | h
    · simp_all [json_helper_parse_command]
    · by_cases hid : cJSON_IsString (cJSON_GetObjectItem root "id".toList) <;>
        simp_all [json_helper_parse_command]

/-- C7: an inbound command-topic message whose payload is not valid JSON
or lacks a string `id` or string `command` field is dropped after parsing:
no handler is dispatched, no response is published, and the application
world is unchanged. -/
theorem malformed_command_dropped (s : Sys) (cb : Bool) (payload : Option Json)
    (h : command_payload_malformed payload) :
    handle_command_message s cb payload = (s, none) := by
  cases cb <;>
    simp [handle_command_message, mqtt_manager_handle_command,
      parse_command_malformed_none payload h]

/-- Witness for C7: a JSON object carrying only an `id` (no `command`) is
dropped with no dispatch and no change. -/
theorem malformed_command_dropped_witness :
    command_payload_malformed
        (some (Json.obj [("id".toList, Json.str "x1".toList)])) ∧
    handle_command_message sys0 true
        (some (Json.obj [("id".toList, Json.str "x1".toList)]))
      = (sys0, none) :=
  ⟨Or.inr rfl,
   malformed_command_dropped sys0 true
     (some (Json.obj [("id".toList, Json.str "x1".toList)])) (Or.inr rfl)⟩

/-! ## C2 -/

/-- C2: an inbound envelope with valid string `id` and `command` fields
whose command equals `"ping"` is dispatched to the registered ping handler
(not to the unknown-command drop path), and that handler only appends one
`"success"` response — every other component of the application world is
left unchanged. The no_tls revision's dispatcher switch is spec-modelled
(`mqtt_callback_command_dispatch`); the ping handler `task_mqtt_on_ping`
and the parse stage are embedded from the source. -/
theorem ping_command_dispatched (s : Sys) (root : Json) (id : List Char)
    (hc : s.connected = true)
    (hid : cJSON_GetObjectItem root "id".toList = some (Json.str id))
    (hcmd : cJSON_GetObjectItem root "command".toList
        = some (Json.str "ping".toList)) :
    handle_command_message s true (some root)
      = ({ s with responses := s.responses ++ [(id.take 7, "success".toList)] },
         some (DispatchTarget.ping (id.take 7))) := by
  simp_all [handle_command_message, mqtt_manager_handle_command,
    json_helper_parse_command, cJSON_IsString, json_valuestring,
    mqtt_callback_command_dispatch, dispatch_exec, task_mqtt_on_ping,
    mqtt_manager_publish_response]

/-- Witness for C2: a concrete ping envelope on the connected world yields
exactly one `"success"` response and the ping dispatch target. -/
theorem ping_command_dispatched_witness :
    handle_command_message sys0 true
        (some (Json.obj [("id".toList, Json.str "42".toList),
                         ("command".toList, Json.str "ping".toList)]))
      = ({ sys0 with responses := [("42".toList, "success".toList)] },
         some (DispatchTarget.ping "42".toList)) :=
  ping_command_dispatched sys0
    (Json.obj [("id".toList, Json.str "42".toList),
               ("command".toList, Json.str "ping".toList)])
    "42".toList rfl rfl rfl

/-! ## C9 -/

/-- C9: for an envelope whose `id` is a string of at most 7 characters
(the `CommandEnvelope` bound) and whose `command` field is a string, the
parse stage succeeds with `cmd_id` equal to `id` verbatim (the 8-byte
copy buffer truncates nothing), and the response envelope built from that
`cmd_id` carries it character for character in its `cmd_id` field. -/
theorem response_echoes_command_id (root : Json) (id st : List Char)
    (hid : cJSON_GetObjectItem root "id".toList = some (Json.str id))
    (hcmd : cJSON_IsString (cJSON_GetObjectItem root "command".toList) = true)
    (hlen : id.length ≤ 7) :
    ∃ pc : ParsedCommand, json_helper_parse_command (some root) 8 32 = some pc ∧
      pc.cmd_id = id ∧
      json_helper_create_response pc.cmd_id st
        = Json.obj [("cmd_id".toList, Json.str id),
                    ("status".toList, Json.str st)] := by
  refine ⟨⟨id, (json_valuestring
      (cJSON_GetObjectItem root "command".toList)).take 31, root⟩, ?_, rfl, rfl⟩
  simp_all [json_helper_parse_command, cJSON_IsString, json_valuestring,
    List.take_of_length_le hlen]

/-- Witness for C9 at a concrete envelope with a 2-character id. -/
theorem response_echoes_command_id_witness :
    ("a1".toList.length ≤ 7) ∧
    ∃ pc : ParsedCommand,
      json_helper_parse_command
          (some (Json.obj [("id".toList, Json.str "a1".toList),
                           ("command".toList, Json.str "ping".toList)])) 8 32
        = some pc ∧
      pc.cmd_id = "a1".toList ∧
      json_helper_create_response pc.cmd_id "success".toList
        = Json.obj [("cmd_id".toList, Json.str "a1".toList),
                    ("status".toList, Json.str "success".toList)] :=
  ⟨by decide,
   response_echoes_command_id
     (Json.obj [("id".toList, Json.str "a1".toList),
                ("command".toList, Json.str "ping".toList)])
     "a1".toList "success".toList rfl rfl (by decide)⟩

end SmartHome
